import Mathlib

/-!
# Verification of `block/nn/layers.py` (Block-Poly-SNN)

Shallow embedding of the neuron-layer orchestration code in
`src/block/nn/layers.py`.  Numeric tensor entries are modelled as rationals
and tensors as index functions.  Raised Python exceptions are modelled with
`Except`.  The integration strategies themselves live in
`block/nn/methods.py`, which is not part of the reviewed sources; per the
spec (section 5) they are pure functions of their construction-time data and
their per-call arguments, so a layer's call into a strategy is recorded
symbolically (`StrategyOutput`), and the reshaping development takes the
strategy as an abstract trace-to-trace function.
-/

/-- Python exceptions that the layer code can raise. -/
inductive PyError where
  | notImplementedError
  | typeError
  deriving DecidableEq

/-- An opaque surrogate spike callable such as `FastSigmoid.apply`; the layer
code only stores it and reads a class name for `hyperparams`. -/
structure SpikeFn where
  className : String
  deriving DecidableEq

/-- The value `methods.RETURN_SPIKES` (the default) and any alternative
return types, passed through `forward` unchanged. -/
inductive ReturnType where
  | spikes
  | other (tag : String)
  deriving DecidableEq

/-- The bound method `self.get_recurrent_current` that `_get_method_func`
injects into the standard strategy when the `recurrent` kwarg is set
(`layers.py` line 49). -/
inductive RecurrentSource where
  | getRecurrentCurrent
  deriving DecidableEq

/-- Invoking the injected recurrent-current source.
`BaseNeurons.get_recurrent_current` (`layers.py` lines 44-45) unconditionally
raises `NotImplementedError`, and no subclass in `layers.py` overrides it
(the overriding definitions at lines 73-74 and 142-143 are commented out). -/
def RecurrentSource.call {α β : Type} (_r : RecurrentSource) (_spikes : α) :
    Except PyError β :=
  .error .notImplementedError

/-- The constructed integration strategy, holding exactly the data the layer
passes to it at construction (`layers.py` lines 50 and 52). -/
inductive MethodFunc where
  | standard (t_len : Nat) (spike_func : SpikeFn) (scale : ℚ) (single_spike : Bool)
      (integrator : Bool) (recurrent_source : Option RecurrentSource)
  | fastNaive (t_len : Nat) (spike_func : SpikeFn) (scale : ℚ) (beta : List ℚ)
  deriving DecidableEq

/-- The `**kwargs` read with `kwargs.get(...)` by `BaseNeurons._get_method_func`
and by the convolutional subclasses; the field defaults are the
`kwargs.get` defaults in the source. -/
structure Kwargs where
  recurrent : Bool := false
  single_spike : Bool := false
  integrator : Bool := false
  flatten : Bool := false
  deriving DecidableEq

/-- `torch.clamp(x, min=lo, max=hi)`. -/
def torchClamp (x lo hi : ℚ) : ℚ := min (max x lo) hi

/-- The clamp used by the `beta` property (`layers.py` line 36):
`torch.clamp(self._beta, min=0.00, max=1)`. -/
def clamp01 (x : ℚ) : ℚ := torchClamp x 0 1

def METHOD_STANDARD : String := "standard"

def METHOD_FAST_NAIVE : String := "fast_naive"

def METHOD_FAST_OPTIMISED : String := "fast_optimised"

/-- `BaseNeurons._get_method_func` (`layers.py` lines 47-54).  `betaProp` is
the value of the `beta` property (the clamped parameter) at construction
time, which line 52 reads for the fast strategy.  An unrecognised method
string falls off the end of the `if` chain, so Python returns `None`. -/
def getMethodFunc (method : String) (t_len : Nat) (spike_func : SpikeFn)
    (scale : ℚ) (betaProp : List ℚ) (kw : Kwargs) :
    Except PyError (Option MethodFunc) :=
  if method = METHOD_STANDARD then
    .ok (some (.standard t_len spike_func scale kw.single_spike kw.integrator
      (if kw.recurrent then some .getRecurrentCurrent else none)))
  else if method = METHOD_FAST_NAIVE then
    .ok (some (.fastNaive t_len spike_func scale betaProp))
  else if method = METHOD_FAST_OPTIMISED then
    .error .notImplementedError
  else
    .ok none

/-- The state of a `BaseNeurons` module (`layers.py` lines 16-28):
the stored constructor arguments, the `_beta` parameter and the strategy
built once by `__init__`. -/
structure BaseNeurons where
  method : String
  t_len : Nat
  beta_init : List ℚ
  beta_requires_grad : Bool
  spike_func : SpikeFn
  scale : ℚ
  beta_param : List ℚ
  method_func : Option MethodFunc
  deriving DecidableEq

/-- `BaseNeurons.__init__` (`layers.py` lines 18-28): store the
hyperparameters, create the `_beta` parameter from `beta_init`, and build
`_method_func` once via `_get_method_func`. -/
def BaseNeurons.init (method : String) (t_len : Nat) (beta_init : List ℚ)
    (beta_requires_grad : Bool) (spike_func : SpikeFn) (scale : ℚ)
    (kw : Kwargs) : Except PyError BaseNeurons := do
  let beta_param := beta_init
  let mf ← getMethodFunc method t_len spike_func scale (beta_param.map clamp01) kw
  pure { method := method, t_len := t_len, beta_init := beta_init,
         beta_requires_grad := beta_requires_grad, spike_func := spike_func,
         scale := scale, beta_param := beta_param, method_func := mf }

/-- The `beta` property (`layers.py` lines 34-36): the stored parameter
clamped elementwise to `[0, 1]`. -/
def BaseNeurons.beta (m : BaseNeurons) : List ℚ := m.beta_param.map clamp01

/-- Reading the `beta` property together with the layer state after the
read: the property builds a new clamped tensor and leaves `_beta` untouched. -/
def BaseNeurons.betaRead (m : BaseNeurons) : List ℚ × BaseNeurons := (m.beta, m)

/-- A symbolic record of one invocation of the constructed strategy.  The
strategies live in `block/nn/methods.py`, outside the reviewed sources; per
spec section 5 they are pure and never mutate layer state, so an invocation
is determined by the strategy value and the call arguments. -/
structure StrategyOutput (α β : Type) where
  func : MethodFunc
  x : α
  beta : List ℚ
  v_init : Option β
  return_type : ReturnType
  deriving DecidableEq

/-- Modelled from the spec: calling `self._method_func(...)`.  `methods.py`
is missing from the sources; spec section 5 makes each strategy a pure
function of its construction data and per-call arguments, so the call is
recorded symbolically. -/
def MethodFunc.call {α β : Type} (mf : MethodFunc) (x : α) (beta : List ℚ)
    (v_init : Option β) (rt : ReturnType) : StrategyOutput α β :=
  { func := mf, x := x, beta := beta, v_init := v_init, return_type := rt }

/-- `BaseNeurons.forward` (`layers.py` lines 38-42): call the stored
`_method_func` with the current, the clamped `beta` property, `v_init` and
the return type.  Calling a `None` method function (unrecognised method
string) is a `TypeError`. -/
def BaseNeurons.forward {α β : Type} (m : BaseNeurons) (x : α)
    (v_init : Option β) (rt : ReturnType) :
    Except PyError (StrategyOutput α β) :=
  match m.method_func with
  | none => .error .typeError
  | some mf => .ok (mf.call x m.beta v_init rt)

/-- `BaseNeurons.forward` with the layer state after the call made explicit:
the body of `forward` is a single `return` expression with no attribute
assignment, so the layer is returned unchanged. -/
def BaseNeurons.forwardSt {α β : Type} (m : BaseNeurons) (x : α)
    (v_init : Option β) (rt : ReturnType) :
    Except PyError (StrategyOutput α β) × BaseNeurons :=
  (m.forward x v_init rt, m)

/-- `BaseNeurons.get_recurrent_current` (`layers.py` lines 44-45):
unconditionally raises `NotImplementedError`. -/
def BaseNeurons.get_recurrent_current {α β : Type} (_m : BaseNeurons)
    (_spikes : α) : Except PyError β :=
  .error .notImplementedError

/-- An optimizer step on the stored leak parameter (the external mutation of
`_beta` between calls); it touches no other field. -/
def BaseNeurons.setBetaParam (m : BaseNeurons) (b : List ℚ) : BaseNeurons :=
  { m with beta_param := b }

/-- Values stored in a hyperparameter snapshot. -/
inductive HValue where
  | str (s : String)
  | nat (n : Nat)
  | rat (q : ℚ)
  | bool (b : Bool)
  | ratList (l : List ℚ)
  deriving DecidableEq

/-- Modelled from the spec: `BBModel.hyperparams` comes from the external
`brainbox` library; it is a generic base-class snapshot with no access to
this layer's `_scale` attribute.  Modelled as the empty snapshot. -/
def bbModelHyperparams : List (String × HValue) := []

/-- `BaseNeurons.hyperparams` (`layers.py` lines 30-32): the base snapshot
plus `method`, `t_len`, `beta_init`, `beta_requires_grad` and the spike
function's class name.  `self._scale` is not included. -/
def BaseNeurons.hyperparams (m : BaseNeurons) : List (String × HValue) :=
  bbModelHyperparams ++
    [("method", HValue.str m.method),
     ("t_len", HValue.nat m.t_len),
     ("beta_init", HValue.ratList m.beta_init),
     ("beta_requires_grad", HValue.bool m.beta_requires_grad),
     ("spike_func", HValue.str m.spike_func.className)]

/-- Keys of a hyperparameter snapshot. -/
def hkeys (d : List (String × HValue)) : List String := d.map Prod.fst

/-- Sum of `f 0 + ... + f (n-1)`. -/
def sumTo : Nat → (Nat → ℚ) → ℚ
  | 0, _ => 0
  | n + 1, f => sumTo n f + f n

/-- `torch.nn.Linear(n_in, n_out)`: an affine map applied along the last
tensor axis. -/
structure TorchLinear where
  n_in : Nat
  n_out : Nat
  weight : Nat → Nat → ℚ
  bias : Nat → ℚ

/-- Applying an `nn.Linear` to a feature vector. -/
def TorchLinear.apply (l : TorchLinear) (v : Nat → ℚ) (o : Nat) : ℚ :=
  sumTo l.n_in (fun i => l.weight o i * v i) + l.bias o

/-- A (batch, neurons, time) trace as an index function. -/
abbrev Tensor3 := Nat → Nat → Nat → ℚ

/-- A (batch, channels, time, height, width) trace as an index function. -/
abbrev Tensor5 := Nat → Nat → Nat → Nat → Nat → ℚ

/-- `nn.Linear` applied to a (batch, time, features) tensor: it acts on the
last axis. -/
def linApply3 (l : TorchLinear) (x : Tensor3) : Tensor3 :=
  fun bi ti o => l.apply (fun i => x bi ti i) o

/-- `LinearNeurons` (`layers.py` lines 57-82); the randomly initialised
`_to_current` weights are external collaborators and not modelled. -/
structure LinearNeurons where
  base : BaseNeurons
  n_in : Nat
  n_out : Nat
  deriving DecidableEq

/-- `LinearNeurons.__init__` (`layers.py` lines 59-67): run the base
constructor first (so a construction error propagates), then store sizes. -/
def LinearNeurons.init (n_in n_out : Nat) (method : String) (t_len : Nat)
    (beta_init : List ℚ) (beta_requires_grad : Bool) (spike_func : SpikeFn)
    (scale : ℚ) (kw : Kwargs) : Except PyError LinearNeurons := do
  let base ← BaseNeurons.init method t_len beta_init beta_requires_grad
    spike_func scale kw
  pure { base := base, n_in := n_in, n_out := n_out }

/-- `LinearNeurons.hyperparams` (`layers.py` lines 69-71). -/
def LinearNeurons.hyperparams (m : LinearNeurons) : List (String × HValue) :=
  m.base.hyperparams ++
    [("n_in", HValue.nat m.n_in), ("n_out", HValue.nat m.n_out)]

/-- `LinearNeurons` does not override `get_recurrent_current` (the override
at `layers.py` lines 73-74 is commented out), so attribute lookup finds the
base-class method. -/
def LinearNeurons.get_recurrent_current {α β : Type} (m : LinearNeurons)
    (spikes : α) : Except PyError β :=
  m.base.get_recurrent_current spikes

/-- `ConvNeurons` (`layers.py` lines 85-121); the `nn.Conv3d` transform is an
external collaborator and not modelled. -/
structure ConvNeurons where
  base : BaseNeurons
  n_in : Nat
  n_out : Nat
  kernel : Nat
  stride : Nat
  flatten : Bool
  deriving DecidableEq

/-- `ConvNeurons.__init__` (`layers.py` lines 87-103). -/
def ConvNeurons.init (n_in n_out kernel stride : Nat) (method : String)
    (t_len : Nat) (beta_init : List ℚ) (beta_requires_grad : Bool)
    (spike_func : SpikeFn) (scale : ℚ) (kw : Kwargs) :
    Except PyError ConvNeurons := do
  let base ← BaseNeurons.init method t_len beta_init beta_requires_grad
    spike_func scale kw
  pure { base := base, n_in := n_in, n_out := n_out, kernel := kernel,
         stride := stride, flatten := kw.flatten }

/-- `ConvNeurons.hyperparams` (`layers.py` lines 105-107). -/
def ConvNeurons.hyperparams (m : ConvNeurons) : List (String × HValue) :=
  m.base.hyperparams ++
    [("n_in", HValue.nat m.n_in), ("n_out", HValue.nat m.n_out),
     ("kernel", HValue.nat m.kernel), ("stride", HValue.nat m.stride)]

/-- `ConvNeurons` does not override `get_recurrent_current`. -/
def ConvNeurons.get_recurrent_current {α β : Type} (m : ConvNeurons)
    (spikes : α) : Except PyError β :=
  m.base.get_recurrent_current spikes

/-- `PolyNeurons` (`layers.py` lines 124-158), with its two affine maps. -/
structure PolyNeurons where
  base : BaseNeurons
  n_in : Nat
  n_out : Nat
  fc1 : TorchLinear
  fc2 : TorchLinear

/-- `PolyNeurons.__init__` (`layers.py` lines 125-135); the two affine maps
are taken as arguments because their weights are randomly initialised in the
source. -/
def PolyNeurons.init (n_in n_out : Nat) (method : String) (t_len : Nat)
    (beta_init : List ℚ) (beta_requires_grad : Bool) (spike_func : SpikeFn)
    (scale : ℚ) (kw : Kwargs) (fc1 fc2 : TorchLinear) :
    Except PyError PolyNeurons := do
  let base ← BaseNeurons.init method t_len beta_init beta_requires_grad
    spike_func scale kw
  pure { base := base, n_in := n_in, n_out := n_out, fc1 := fc1, fc2 := fc2 }

/-- `PolyNeurons.hyperparams` (`layers.py` lines 138-140). -/
def PolyNeurons.hyperparams (m : PolyNeurons) : List (String × HValue) :=
  m.base.hyperparams ++
    [("n_in", HValue.nat m.n_in), ("n_out", HValue.nat m.n_out)]

/-- `PolyNeurons._to_current` (`layers.py` lines 145-147):
`(self.fc2(x) + 1) * self.fc1(x)` elementwise on a (batch, time, features)
tensor. -/
def PolyNeurons.toCurrent (m : PolyNeurons) (x : Tensor3) : Tensor3 :=
  fun bi ti o => (linApply3 m.fc2 x bi ti o + 1) * linApply3 m.fc1 x bi ti o

/-- The current handed to the strategy by `PolyNeurons.forward`
(`layers.py` lines 151-158): `permute(0, 2, 1)`, `_to_current`, then
`permute(0, 2, 1)` back. -/
def PolyNeurons.current (m : PolyNeurons) (x : Tensor3) : Tensor3 :=
  fun bi o ti => m.toCurrent (fun bj tj i => x bj i tj) bi ti o

/-- `PolyNeurons.forward` (`layers.py` lines 151-158). -/
def PolyNeurons.forward {β : Type} (m : PolyNeurons) (x : Tensor3)
    (v_init : Option β) (rt : ReturnType) :
    Except PyError (StrategyOutput Tensor3 β) :=
  m.base.forward (m.current x) v_init rt

/-- `PolyNeurons` does not override `get_recurrent_current` (the override at
`layers.py` lines 142-143 is commented out). -/
def PolyNeurons.get_recurrent_current {α β : Type} (m : PolyNeurons)
    (spikes : α) : Except PyError β :=
  m.base.get_recurrent_current spikes

/-- `PolyConvNeurons` (`layers.py` lines 160-203); the two `nn.Conv3d` maps
are abstract external collaborators on 5-D tensors. -/
structure PolyConvNeurons where
  base : BaseNeurons
  n_in : Nat
  n_out : Nat
  kernel : Nat
  stride : Nat
  flatten : Bool
  conv_1 : Tensor5 → Tensor5
  conv_2 : Tensor5 → Tensor5

/-- `PolyConvNeurons.__init__` (`layers.py` lines 162-185). -/
def PolyConvNeurons.init (n_in n_out kernel stride : Nat) (method : String)
    (t_len : Nat) (beta_init : List ℚ) (beta_requires_grad : Bool)
    (spike_func : SpikeFn) (scale : ℚ) (kw : Kwargs)
    (conv_1 conv_2 : Tensor5 → Tensor5) : Except PyError PolyConvNeurons := do
  let base ← BaseNeurons.init method t_len beta_init beta_requires_grad
    spike_func scale kw
  pure { base := base, n_in := n_in, n_out := n_out, kernel := kernel,
         stride := stride, flatten := kw.flatten, conv_1 := conv_1,
         conv_2 := conv_2 }

/-- `PolyConvNeurons.hyperparams` (`layers.py` lines 187-189). -/
def PolyConvNeurons.hyperparams (m : PolyConvNeurons) :
    List (String × HValue) :=
  m.base.hyperparams ++
    [("n_in", HValue.nat m.n_in), ("n_out", HValue.nat m.n_out),
     ("kernel", HValue.nat m.kernel), ("stride", HValue.nat m.stride)]

/-- `PolyConvNeurons._to_current` (`layers.py` line 174):
`lambda x: self.conv_1(x) * (1 + self.conv_2(x))`. -/
def PolyConvNeurons.toCurrent (m : PolyConvNeurons) (x : Tensor5) : Tensor5 :=
  fun bi c ti i j => m.conv_1 x bi c ti i j * (1 + m.conv_2 x bi c ti i j)

/-- `PolyConvNeurons` does not override `get_recurrent_current`. -/
def PolyConvNeurons.get_recurrent_current {α β : Type} (m : PolyConvNeurons)
    (spikes : α) : Except PyError β :=
  m.base.get_recurrent_current spikes

/-- The pre-strategy reshape in `ConvNeurons.forward` and
`PolyConvNeurons.forward` (`layers.py` lines 113-114 and 195-196):
`permute(0, 1, 3, 4, 2)` followed by `flatten(start_dim=1, end_dim=3)`,
a row-major merge of the (channel, height, width) axes. -/
def convPermuteFlatten (h w : Nat) (cur : Tensor5) : Tensor3 :=
  fun bi k ti => cur bi (k / (h * w)) ti (k % (h * w) / w) (k % w)

/-- Row-major linearisation of a contiguous (batch, neurons, time) tensor,
the data order `Tensor.view` reinterprets. -/
def lin3 (N t : Nat) (s : Tensor3) : Nat → ℚ :=
  fun p => s (p / (N * t)) (p % (N * t) / t) (p % t)

/-- `spikes.view(b, n, h, w, t)` (`layers.py` lines 118 and 200): reinterpret
the row-major data of the (batch, n*h*w, time) trace with shape
(b, n, h, w, t). -/
def view5 (n h w t : Nat) (s : Tensor3) : Tensor5 :=
  fun bi c i j ti =>
    lin3 (n * (h * w)) t s ((((bi * n + c) * h + i) * w + j) * t + ti)

/-- `spikes.permute(0, 1, 4, 2, 3)` (`layers.py` lines 119 and 201). -/
def permute01423 (s : Tensor5) : Tensor5 :=
  fun bi c ti i j => s bi c i j ti

/-- The `flatten=False` path of `ConvNeurons.forward` and
`PolyConvNeurons.forward` (`layers.py` lines 109-121 and 191-203) around an
abstract integration strategy `F` on (batch, neurons, time) traces. -/
def convForwardSpatial (n h w t : Nat) (F : Tensor3 → Tensor3)
    (cur : Tensor5) : Tensor5 :=
  permute01423 (view5 n h w t (F (convPermuteFlatten h w cur)))

/-- Test fixture: a surrogate spike callable. -/
def fastSig : SpikeFn := { className := "FastSigmoid" }

/-- Test fixture: a standard-method layer whose stored leak parameter has
one entry below 0 and one above 1. -/
def testStd : BaseNeurons :=
  { method := METHOD_STANDARD, t_len := 4, beta_init := [-(1 : ℚ)/2, 3/2],
    beta_requires_grad := false, spike_func := fastSig, scale := 100,
    beta_param := [-(1 : ℚ)/2, 3/2],
    method_func := some (.standard 4 fastSig 100 false false none) }

/-- Test fixture: the strategy output of a forward call on `testStd`. -/
def testOut : StrategyOutput Nat Nat :=
  MethodFunc.call (MethodFunc.standard 4 fastSig 100 false false none) 0
    testStd.beta none ReturnType.spikes

/-- Test fixture: a fast-naive layer with stored leak parameter `[3/2]`. -/
def testFastNaive : BaseNeurons :=
  { method := METHOD_FAST_NAIVE, t_len := 3, beta_init := [(3 : ℚ)/2],
    beta_requires_grad := false, spike_func := fastSig, scale := 100,
    beta_param := [(3 : ℚ)/2],
    method_func := some (.fastNaive 3 fastSig 100 (List.map clamp01 [(3 : ℚ)/2])) }

/-- Test fixture: the layer produced by a fast-naive construction that also
requested the `recurrent` kwarg. -/
def testFastRec : BaseNeurons :=
  { method := METHOD_FAST_NAIVE, t_len := 4, beta_init := [(9 : ℚ)/10],
    beta_requires_grad := false, spike_func := fastSig, scale := 100,
    beta_param := [(9 : ℚ)/10],
    method_func := some (.fastNaive 4 fastSig 100 (List.map clamp01 [(9 : ℚ)/10])) }

/-- Test fixture: a standard-method layer constructed with `recurrent=True`. -/
def testStdRec : BaseNeurons :=
  { method := METHOD_STANDARD, t_len := 4, beta_init := [(9 : ℚ)/10],
    beta_requires_grad := false, spike_func := fastSig, scale := 100,
    beta_param := [(9 : ℚ)/10],
    method_func := some (.standard 4 fastSig 100 false false
      (some RecurrentSource.getRecurrentCurrent)) }

/-- Test fixture: a linear layer over `testStd`. -/
def testLinear : LinearNeurons := { base := testStd, n_in := 2, n_out := 3 }

/-- Test fixture: a convolutional layer over `testStd`. -/
def testConv : ConvNeurons :=
  { base := testStd, n_in := 1, n_out := 2, kernel := 3, stride := 1,
    flatten := false }

/-- Test fixture: a small affine map. -/
def testLin1 : TorchLinear :=
  { n_in := 2, n_out := 1, weight := fun _ i => (i : ℚ) + 1,
    bias := fun _ => 1 }

/-- Test fixture: a second small affine map. -/
def testLin2 : TorchLinear :=
  { n_in := 2, n_out := 1, weight := fun _ _ => 2, bias := fun _ => 0 }

/-- Test fixture: a polynomial layer over `testStd`. -/
def testPoly : PolyNeurons :=
  { base := testStd, n_in := 2, n_out := 1, fc1 := testLin1, fc2 := testLin2 }

/-- Test fixture: a concrete (batch, neurons, time) input. -/
def testX : Tensor3 := fun bi i ti => ((bi + 2 * i + 3 * ti : Nat) : ℚ)

/-- Test fixture: the strategy output of `testPoly.forward testX`. -/
def testPolyOut : StrategyOutput Tensor3 Nat :=
  MethodFunc.call (MethodFunc.standard 4 fastSig 100 false false none)
    (testPoly.current testX) testStd.beta none ReturnType.spikes

/-- Test fixture: a polynomial convolutional layer with simple conv maps. -/
def testPolyConv : PolyConvNeurons :=
  { base := testStd, n_in := 1, n_out := 1, kernel := 1, stride := 1,
    flatten := false, conv_1 := fun x => x,
    conv_2 := fun x bi c ti i j => x bi c ti i j + 1 }

/-- Division recovery for a row-major pair. -/
theorem rowMajor_div (m q r : Nat) (hr : r < m) : (m * q + r) / m = q := by
  have hm : 0 < m := lt_of_le_of_lt (Nat.zero_le r) hr
  rw [Nat.mul_add_div hm, Nat.div_eq_of_lt hr]
  exact Nat.add_zero q

/-- Remainder recovery for a row-major pair. -/
theorem rowMajor_mod (m q r : Nat) (hr : r < m) : (m * q + r) % m = r := by
  rw [Nat.mul_add_mod, Nat.mod_eq_of_lt hr]

/-- The flattened (channel, height, width) index is in range. -/
theorem flat_index_lt (n h w c i j : Nat) (hc : c < n) (hi : i < h)
    (hj : j < w) : c * (h * w) + (i * w + j) < n * (h * w) := by
  have h1 : i * w + j < h * w := by
    calc i * w + j < i * w + w := Nat.add_lt_add_left hj _
      _ = (i + 1) * w := by ring
      _ ≤ h * w := mul_le_mul_right' hi w
  calc c * (h * w) + (i * w + j) < c * (h * w) + h * w :=
        Nat.add_lt_add_left h1 _
    _ = (c + 1) * (h * w) := by ring
    _ ≤ n * (h * w) := mul_le_mul_right' hc (h * w)

/-- C1: for every stored leak parameter value, the leak coefficient actually
used by a forward call (the `beta` property) equals the stored value clamped
to `[0, 1]`, i.e. `min(max(b, 0), 1)`; reading `beta` never modifies the
stored parameter, so a stored value outside `[0, 1]` persists unchanged
while the integration sees `0` or `1` respectively. -/
theorem c1_beta_clamped_on_read {α β : Type} (m : BaseNeurons) (x : α)
    (v : Option β) (rt : ReturnType) (out : StrategyOutput α β) (b : ℚ) :
    m.betaRead = (m.beta_param.map clamp01, m)
    ∧ (m.forward x v rt = .ok out → out.beta = m.beta_param.map clamp01)
    ∧ clamp01 b = min (max b 0) 1
    ∧ (b ≤ 0 → clamp01 b = 0)
    ∧ (1 ≤ b → clamp01 b = 1)
    ∧ (0 ≤ b → b ≤ 1 → clamp01 b = b) := by
  refine ⟨rfl, ?_, rfl, ?_, ?_, ?_⟩
  · intro h
    cases hm : m.method_func with
    | none => simp [BaseNeurons.forward, hm] at h
    | some mf =>
      simp [BaseNeurons.forward, hm] at h
      subst h
      rfl
  · intro hb
    unfold clamp01 torchClamp
    rw [max_eq_right hb]
    exact min_eq_left zero_le_one
  · intro hb
    unfold clamp01 torchClamp
    rw [max_eq_left (le_trans zero_le_one hb)]
    exact min_eq_right hb
  · intro hb0 hb1
    unfold clamp01 torchClamp
    rw [max_eq_left hb0]
    exact min_eq_left hb1

/-- Witness for C1 at a concrete layer whose stored parameter is
`[-1/2, 3/2]`. -/
theorem c1_witness :
    testStd.betaRead = (List.map clamp01 [-(1 : ℚ)/2, 3/2], testStd)
    ∧ testOut.beta = List.map clamp01 [-(1 : ℚ)/2, 3/2]
    ∧ clamp01 (-(1 : ℚ)/2) = 0
    ∧ clamp01 ((3 : ℚ)/2) = 1
    ∧ List.map clamp01 [-(1 : ℚ)/2, 3/2] = [0, 1] := by
  have h := @c1_beta_clamped_on_read Nat Nat testStd 0 none ReturnType.spikes
    testOut (-(1 : ℚ)/2)
  have h2 := @c1_beta_clamped_on_read Nat Nat testStd 0 none ReturnType.spikes
    testOut ((3 : ℚ)/2)
  have hz := h.2.2.2.1 (by norm_num)
  have ho := h2.2.2.2.2.1 (by norm_num)
  exact ⟨h.1, h.2.1 rfl, hz, ho, by simp [hz, ho]⟩

/-- C2: constructing any neuron layer with method `fast_optimised` raises
`NotImplementedError` during construction, before any forward call exists. -/
theorem c2_fast_optimised_not_implemented (t : Nat) (bi : List ℚ) (brg : Bool)
    (sf : SpikeFn) (sc : ℚ) (kw : Kwargs) (n_in n_out kernel stride : Nat)
    (fc1 fc2 : TorchLinear) (cv1 cv2 : Tensor5 → Tensor5) :
    BaseNeurons.init METHOD_FAST_OPTIMISED t bi brg sf sc kw
      = .error .notImplementedError
    ∧ LinearNeurons.init n_in n_out METHOD_FAST_OPTIMISED t bi brg sf sc kw
      = .error .notImplementedError
    ∧ ConvNeurons.init n_in n_out kernel stride METHOD_FAST_OPTIMISED t bi brg
        sf sc kw = .error .notImplementedError
    ∧ PolyNeurons.init n_in n_out METHOD_FAST_OPTIMISED t bi brg sf sc kw fc1
        fc2 = .error .notImplementedError
    ∧ PolyConvNeurons.init n_in n_out kernel stride METHOD_FAST_OPTIMISED t bi
        brg sf sc kw cv1 cv2 = .error .notImplementedError :=
  ⟨rfl, rfl, rfl, rfl, rfl⟩

/-- C3: the strategy is selected and built exactly once, in `__init__`;
a forward call leaves it (and the whole layer) unchanged and only invokes
the already-built strategy; for `fast_naive` the clamped construction-time
leak values stay bound inside the strategy even after the stored parameter
is later mutated by an optimizer step. -/
theorem c3_strategy_built_once {α β : Type} (t : Nat) (bi : List ℚ)
    (brg : Bool) (sf : SpikeFn) (sc : ℚ) (kw : Kwargs) (m : BaseNeurons)
    (b2 : List ℚ) (x : α) (v : Option β) (rt : ReturnType)
    (h : BaseNeurons.init METHOD_FAST_NAIVE t bi brg sf sc kw = .ok m) :
    m.method_func = some (.fastNaive t sf sc (bi.map clamp01))
    ∧ (m.setBetaParam b2).method_func = m.method_func
    ∧ ((m.setBetaParam b2).forwardSt x v rt).2 = m.setBetaParam b2
    ∧ (m.setBetaParam b2).forward x v rt
      = .ok ((MethodFunc.fastNaive t sf sc (bi.map clamp01)).call x
          (b2.map clamp01) v rt) := by
  have hm : m =
      { method := METHOD_FAST_NAIVE, t_len := t, beta_init := bi,
        beta_requires_grad := brg, spike_func := sf, scale := sc,
        beta_param := bi,
        method_func := some (.fastNaive t sf sc (bi.map clamp01)) } := by
    have h' : (Except.ok
        { method := METHOD_FAST_NAIVE, t_len := t, beta_init := bi,
          beta_requires_grad := brg, spike_func := sf, scale := sc,
          beta_param := bi,
          method_func := some (.fastNaive t sf sc (bi.map clamp01)) } :
          Except PyError BaseNeurons) = Except.ok m := h
    injection h' with h2
    exact h2.symm
  subst hm
  exact ⟨rfl, rfl, rfl, rfl⟩

/-- Witness for C3 at a concrete fast-naive layer with `beta_init = [3/2]`
and a later optimizer update to `[1/4]`. -/
theorem c3_witness :
    testFastNaive.method_func
      = some (MethodFunc.fastNaive 3 fastSig 100 (List.map clamp01 [(3 : ℚ)/2]))
    ∧ (testFastNaive.setBetaParam [(1 : ℚ)/4]).method_func
      = testFastNaive.method_func
    ∧ ((testFastNaive.setBetaParam [(1 : ℚ)/4]).forwardSt (0 : Nat)
        (none : Option Nat) ReturnType.spikes).2
      = testFastNaive.setBetaParam [(1 : ℚ)/4]
    ∧ (testFastNaive.setBetaParam [(1 : ℚ)/4]).forward (0 : Nat)
        (none : Option Nat) ReturnType.spikes
      = .ok ((MethodFunc.fastNaive 3 fastSig 100
          (List.map clamp01 [(3 : ℚ)/2])).call (0 : Nat)
          (List.map clamp01 [(1 : ℚ)/4]) none ReturnType.spikes) :=
  @c3_strategy_built_once Nat Nat 3 [(3 : ℚ)/2] false fastSig 100
    (Kwargs.mk false false false false) testFastNaive [(1 : ℚ)/4] 0 none
    ReturnType.spikes rfl

/-- Counterexample to C4: constructing a `fast_naive` layer with the
`recurrent` kwarg set succeeds, yields exactly the same layer as the
non-recurrent construction (no recurrence information reaches the strategy),
and a forward call on it succeeds as well — no configuration error is
signalled at construction or at the start of a forward call. -/
theorem c4_counterexample :
    BaseNeurons.init METHOD_FAST_NAIVE 4 [(9 : ℚ)/10] false fastSig 100
      (Kwargs.mk true false false false) = .ok testFastRec
    ∧ BaseNeurons.init METHOD_FAST_NAIVE 4 [(9 : ℚ)/10] false fastSig 100
      (Kwargs.mk false false false false) = .ok testFastRec
    ∧ testFastRec.forward (0 : Nat) (none : Option Nat) ReturnType.spikes
      = .ok ((MethodFunc.fastNaive 4 fastSig 100
          (List.map clamp01 [(9 : ℚ)/10])).call 0 testFastRec.beta none
          ReturnType.spikes) :=
  ⟨rfl, rfl, rfl⟩

/-- C4 amended: requesting recurrent feedback together with `fast_naive`
raises no error and is silently ignored — the constructed layer is
identical to the one built with `recurrent=False`, so no later check is
possible, and construction always succeeds. -/
theorem c4_amended_recurrent_silently_ignored (t : Nat) (bi : List ℚ)
    (brg : Bool) (sf : SpikeFn) (sc : ℚ) (kw : Kwargs) :
    BaseNeurons.init METHOD_FAST_NAIVE t bi brg sf sc kw
      = BaseNeurons.init METHOD_FAST_NAIVE t bi brg sf sc
          (Kwargs.mk false kw.single_spike kw.integrator kw.flatten)
    ∧ (BaseNeurons.init METHOD_FAST_NAIVE t bi brg sf sc kw).isOk = true :=
  ⟨rfl, rfl⟩

/-- Counterexample to C5: at a concrete layer whose surrogate steepness
scale is `100`, the hyperparameter snapshot carries exactly the keys
`method`, `t_len`, `beta_init`, `beta_requires_grad`, `spike_func` — the
scale is not part of the snapshot. -/
theorem c5_counterexample :
    testStd.scale = 100
    ∧ hkeys testStd.hyperparams
      = ["method", "t_len", "beta_init", "beta_requires_grad", "spike_func"]
    ∧ "scale" ∉ hkeys testStd.hyperparams :=
  ⟨rfl, rfl, by decide⟩

/-- C5 amended: for every layer, `hyperparams` returns a snapshot containing
the method choice, the timestep count, the leak initialisation, the
leak-trainability flag and the surrogate-function identity (plus the
subclass shape fields), but not the surrogate steepness scale. -/
theorem c5_amended_hyperparams (m : BaseNeurons) (ml : LinearNeurons)
    (mc : ConvNeurons) (mp : PolyNeurons) (mq : PolyConvNeurons) :
    ("method", HValue.str m.method) ∈ m.hyperparams
    ∧ ("t_len", HValue.nat m.t_len) ∈ m.hyperparams
    ∧ ("beta_init", HValue.ratList m.beta_init) ∈ m.hyperparams
    ∧ ("beta_requires_grad", HValue.bool m.beta_requires_grad) ∈ m.hyperparams
    ∧ ("spike_func", HValue.str m.spike_func.className) ∈ m.hyperparams
    ∧ "scale" ∉ hkeys m.hyperparams
    ∧ "scale" ∉ hkeys ml.hyperparams
    ∧ "scale" ∉ hkeys mc.hyperparams
    ∧ "scale" ∉ hkeys mp.hyperparams
    ∧ "scale" ∉ hkeys mq.hyperparams := by
  refine ⟨?_, ?_, ?_, ?_, ?_, ?_, ?_, ?_, ?_, ?_⟩ <;>
    simp [BaseNeurons.hyperparams, LinearNeurons.hyperparams,
      ConvNeurons.hyperparams, PolyNeurons.hyperparams,
      PolyConvNeurons.hyperparams, hkeys, bbModelHyperparams]

/-- C6: for a `standard`-method layer, the recurrent-current source handed
to the strategy is a nullable injected capability: it is the layer's
`get_recurrent_current` operation exactly when the `recurrent` kwarg is set,
`None` otherwise, and the kwarg defaults to off. -/
theorem c6_recurrent_capability (t : Nat) (bi : List ℚ) (brg : Bool)
    (sf : SpikeFn) (sc : ℚ) (kw : Kwargs) (m : BaseNeurons)
    (h : BaseNeurons.init METHOD_STANDARD t bi brg sf sc kw = .ok m) :
    m.method_func = some (.standard t sf sc kw.single_spike kw.integrator
      (if kw.recurrent then some RecurrentSource.getRecurrentCurrent else none))
    ∧ (kw.recurrent = true → m.method_func = some (.standard t sf sc
        kw.single_spike kw.integrator (some RecurrentSource.getRecurrentCurrent)))
    ∧ (kw.recurrent = false → m.method_func = some (.standard t sf sc
        kw.single_spike kw.integrator none))
    ∧ ({} : Kwargs).recurrent = false := by
  have hm : m =
      { method := METHOD_STANDARD, t_len := t, beta_init := bi,
        beta_requires_grad := brg, spike_func := sf, scale := sc,
        beta_param := bi,
        method_func := some (.standard t sf sc kw.single_spike kw.integrator
          (if kw.recurrent then some RecurrentSource.getRecurrentCurrent
           else none)) } := by
    have h' : (Except.ok
        { method := METHOD_STANDARD, t_len := t, beta_init := bi,
          beta_requires_grad := brg, spike_func := sf, scale := sc,
          beta_param := bi,
          method_func := some (.standard t sf sc kw.single_spike kw.integrator
            (if kw.recurrent then some RecurrentSource.getRecurrentCurrent
             else none)) } :
          Except PyError BaseNeurons) = Except.ok m := h
    injection h' with h2
    exact h2.symm
  subst hm
  refine ⟨rfl, ?_, ?_, rfl⟩
  · intro hr
    simp [hr]
  · intro hr
    simp [hr]

/-- Witness for C6 at a concrete `standard` construction with
`recurrent=True`. -/
theorem c6_witness :
    testStdRec.method_func = some (MethodFunc.standard 4 fastSig 100 false
      false (some RecurrentSource.getRecurrentCurrent))
    ∧ ({} : Kwargs).recurrent = false := by
  have h6 := c6_recurrent_capability 4 [(9 : ℚ)/10] false fastSig 100
    (Kwargs.mk true false false false) testStdRec rfl
  exact ⟨h6.2.1 rfl, h6.2.2.2⟩

/-- C7: with the flatten option disabled, the post-strategy view-and-permute
of `ConvNeurons.forward` / `PolyConvNeurons.forward` restores the spatial
layout: the output entry at (batch, channel, time, row, column) is the
strategy's output at the flattened neuron index `c*h*w + i*w + j`, and the
whole pipeline around the identity strategy is the identity on the
post-convolution current. -/
theorem c7_spatial_layout_restored (n h w t : Nat) (F : Tensor3 → Tensor3)
    (cur : Tensor5) (bi c ti i j : Nat) (hc : c < n) (hi : i < h)
    (hj : j < w) (hti : ti < t) :
    convForwardSpatial n h w t F cur bi c ti i j
      = F (convPermuteFlatten h w cur) bi (c * (h * w) + (i * w + j)) ti
    ∧ convForwardSpatial n h w t (fun s => s) cur bi c ti i j
      = cur bi c ti i j := by
  have hw : 0 < w := lt_of_le_of_lt (Nat.zero_le j) hj
  have hk : c * (h * w) + (i * w + j) < n * (h * w) :=
    flat_index_lt n h w c i j hc hi hj
  have hr : (c * (h * w) + (i * w + j)) * t + ti < n * (h * w) * t := by
    calc (c * (h * w) + (i * w + j)) * t + ti
        < (c * (h * w) + (i * w + j)) * t + t := Nat.add_lt_add_left hti _
      _ = (c * (h * w) + (i * w + j) + 1) * t := by ring
      _ ≤ n * (h * w) * t := mul_le_mul_right' hk t
  have hp1 : (((bi * n + c) * h + i) * w + j) * t + ti
      = n * (h * w) * t * bi + ((c * (h * w) + (i * w + j)) * t + ti) := by
    ring
  have e1 : ((((bi * n + c) * h + i) * w + j) * t + ti) / (n * (h * w) * t)
      = bi := by
    rw [hp1]
    exact rowMajor_div _ _ _ hr
  have e2 : ((((bi * n + c) * h + i) * w + j) * t + ti) % (n * (h * w) * t) / t
      = c * (h * w) + (i * w + j) := by
    rw [hp1, rowMajor_mod _ _ _ hr,
      show (c * (h * w) + (i * w + j)) * t + ti
        = t * (c * (h * w) + (i * w + j)) + ti by ring]
    exact rowMajor_div _ _ _ hti
  have e3 : ((((bi * n + c) * h + i) * w + j) * t + ti) % t = ti := by
    rw [show (((bi * n + c) * h + i) * w + j) * t + ti
      = t * (((bi * n + c) * h + i) * w + j) + ti by ring]
    exact rowMajor_mod _ _ _ hti
  have key : ∀ G : Tensor3 → Tensor3,
      convForwardSpatial n h w t G cur bi c ti i j
        = G (convPermuteFlatten h w cur) bi (c * (h * w) + (i * w + j)) ti := by
    intro G
    show lin3 (n * (h * w)) t (G (convPermuteFlatten h w cur))
      ((((bi * n + c) * h + i) * w + j) * t + ti) = _
    unfold lin3
    rw [e1, e2, e3]
  have h1 : i * w + j < h * w := by
    calc i * w + j < i * w + w := Nat.add_lt_add_left hj _
      _ = (i + 1) * w := by ring
      _ ≤ h * w := mul_le_mul_right' hi w
  have f1 : (c * (h * w) + (i * w + j)) / (h * w) = c := by
    rw [show c * (h * w) + (i * w + j) = h * w * c + (i * w + j) by ring]
    exact rowMajor_div _ _ _ h1
  have f2 : (c * (h * w) + (i * w + j)) % (h * w) / w = i := by
    rw [show c * (h * w) + (i * w + j) = h * w * c + (i * w + j) by ring,
      rowMajor_mod _ _ _ h1, show i * w + j = w * i + j by ring]
    exact rowMajor_div _ _ _ hj
  have f3 : (c * (h * w) + (i * w + j)) % w = j := by
    rw [show c * (h * w) + (i * w + j) = w * (c * h + i) + j by ring]
    exact rowMajor_mod _ _ _ hj
  refine ⟨key F, ?_⟩
  rw [key (fun s => s)]
  show convPermuteFlatten h w cur bi (c * (h * w) + (i * w + j)) ti
    = cur bi c ti i j
  unfold convPermuteFlatten
  rw [f1, f2, f3]

/-- Witness for C7 at concrete sizes (n, h, w, t) = (2, 2, 3, 2), the
identity strategy, and index (1, 1, 1, 1, 2). -/
theorem c7_witness :
    convForwardSpatial 2 2 3 2 (fun s => s)
      (fun bi c ti i j => ((bi * 10000 + c * 1000 + ti * 100 + i * 10 + j :
        Nat) : ℚ)) 1 1 1 1 2
      = (fun s => s) (convPermuteFlatten 2 3
          (fun bi c ti i j => ((bi * 10000 + c * 1000 + ti * 100 + i * 10 + j :
            Nat) : ℚ))) 1 (1 * (2 * 3) + (1 * 3 + 2)) 1
    ∧ convForwardSpatial 2 2 3 2 (fun s => s)
      (fun bi c ti i j => ((bi * 10000 + c * 1000 + ti * 100 + i * 10 + j :
        Nat) : ℚ)) 1 1 1 1 2
      = (fun bi c ti i j => ((bi * 10000 + c * 1000 + ti * 100 + i * 10 + j :
        Nat) : ℚ)) 1 1 1 1 2 :=
  c7_spatial_layout_restored 2 2 3 2 (fun s => s)
    (fun bi c ti i j => ((bi * 10000 + c * 1000 + ti * 100 + i * 10 + j :
      Nat) : ℚ)) 1 1 1 1 2 (by decide) (by decide) (by decide) (by decide)

/-- C8: a forward call is reentrant and stateless with respect to temporal
state: it returns the layer with every attribute unchanged (in particular
the learnable leak parameter), and an immediately repeated call with the
same inputs and parameter values produces the identical output. -/
theorem c8_forward_stateless {α β : Type} (m : BaseNeurons) (x : α)
    (v : Option β) (rt : ReturnType) :
    (m.forwardSt x v rt).2 = m
    ∧ (m.forwardSt x v rt).2.beta_param = m.beta_param
    ∧ ((m.forwardSt x v rt).2.forwardSt x v rt).1 = (m.forwardSt x v rt).1 :=
  ⟨rfl, rfl, rfl⟩

/-- C9: `PolyNeurons` feeds the strategy the elementwise polynomial product
`(fc2(x) + 1) * fc1(x)` of its two independently parameterised affine maps,
applied per timestep after permuting the input to (batch, time, features);
`PolyConvNeurons._to_current` is the analogous `conv_1(x) * (1 + conv_2(x))`
of its two convolutional maps. -/
theorem c9_poly_current {β : Type} (m : PolyNeurons) (x : Tensor3)
    (v : Option β) (rt : ReturnType) (out : StrategyOutput Tensor3 β)
    (bi o ti : Nat) (mq : PolyConvNeurons) (y : Tensor5)
    (bj cc tj ii jj : Nat)
    (h : m.forward x v rt = .ok out) :
    out.x bi o ti
      = (m.fc2.apply (fun i => x bi i ti) o + 1)
        * m.fc1.apply (fun i => x bi i ti) o
    ∧ mq.toCurrent y bj cc tj ii jj
      = mq.conv_1 y bj cc tj ii jj * (1 + mq.conv_2 y bj cc tj ii jj) := by
  constructor
  · cases hm : m.base.method_func with
    | none => simp [PolyNeurons.forward, BaseNeurons.forward, hm] at h
    | some mf =>
      simp [PolyNeurons.forward, BaseNeurons.forward, hm] at h
      subst h
      rfl
  · rfl

/-- Witness for C9 at a concrete polynomial layer and input. -/
theorem c9_witness :
    testPolyOut.x 0 0 1
      = (testPoly.fc2.apply (fun i => testX 0 i 1) 0 + 1)
        * testPoly.fc1.apply (fun i => testX 0 i 1) 0
    ∧ testPolyConv.toCurrent (fun _ _ _ _ _ => (2 : ℚ)) 0 0 0 0 0
      = testPolyConv.conv_1 (fun _ _ _ _ _ => (2 : ℚ)) 0 0 0 0 0
        * (1 + testPolyConv.conv_2 (fun _ _ _ _ _ => (2 : ℚ)) 0 0 0 0 0) :=
  @c9_poly_current Nat testPoly testX none ReturnType.spikes testPolyOut 0 0 1
    testPolyConv (fun _ _ _ _ _ => (2 : ℚ)) 0 0 0 0 0 rfl

/-- C10: `get_recurrent_current` raises `NotImplementedError` on
`BaseNeurons` and no provided subclass overrides it; constructing a
`standard`-method layer with the recurrent flag enabled nevertheless
succeeds, with the raising bound method injected as the source, so any
invocation of the injected recurrent-current source raises
`NotImplementedError`. -/
theorem c10_recurrent_source_raises {α β : Type} (t : Nat) (bi : List ℚ)
    (brg : Bool) (sf : SpikeFn) (sc : ℚ) (kw : Kwargs) (m : BaseNeurons)
    (spikes : α) (ml : LinearNeurons) (mc : ConvNeurons) (mp : PolyNeurons)
    (mq : PolyConvNeurons) (hkw : kw.recurrent = true)
    (h : BaseNeurons.init METHOD_STANDARD t bi brg sf sc kw = .ok m) :
    m.method_func = some (.standard t sf sc kw.single_spike kw.integrator
      (some RecurrentSource.getRecurrentCurrent))
    ∧ RecurrentSource.call RecurrentSource.getRecurrentCurrent spikes
      = (Except.error PyError.notImplementedError : Except PyError β)
    ∧ m.get_recurrent_current spikes
      = (Except.error PyError.notImplementedError : Except PyError β)
    ∧ ml.get_recurrent_current spikes
      = (Except.error PyError.notImplementedError : Except PyError β)
    ∧ mc.get_recurrent_current spikes
      = (Except.error PyError.notImplementedError : Except PyError β)
    ∧ mp.get_recurrent_current spikes
      = (Except.error PyError.notImplementedError : Except PyError β)
    ∧ mq.get_recurrent_current spikes
      = (Except.error PyError.notImplementedError : Except PyError β) := by
  have hm : m =
      { method := METHOD_STANDARD, t_len := t, beta_init := bi,
        beta_requires_grad := brg, spike_func := sf, scale := sc,
        beta_param := bi,
        method_func := some (.standard t sf sc kw.single_spike kw.integrator
          (if kw.recurrent then some RecurrentSource.getRecurrentCurrent
           else none)) } := by
    have h' : (Except.ok
        { method := METHOD_STANDARD, t_len := t, beta_init := bi,
          beta_requires_grad := brg, spike_func := sf, scale := sc,
          beta_param := bi,
          method_func := some (.standard t sf sc kw.single_spike kw.integrator
            (if kw.recurrent then some RecurrentSource.getRecurrentCurrent
             else none)) } :
          Except PyError BaseNeurons) = Except.ok m := h
    injection h' with h2
    exact h2.symm
  subst hm
  refine ⟨by simp [hkw], rfl, rfl, rfl, rfl, rfl, rfl⟩

/-- Witness for C10 at a concrete `standard` + `recurrent=True` layer. -/
theorem c10_witness :
    testStdRec.method_func = some (MethodFunc.standard 4 fastSig 100 false
      false (some RecurrentSource.getRecurrentCurrent))
    ∧ RecurrentSource.call RecurrentSource.getRecurrentCurrent (0 : Nat)
      = (Except.error PyError.notImplementedError : Except PyError Nat)
    ∧ testStdRec.get_recurrent_current (0 : Nat)
      = (Except.error PyError.notImplementedError : Except PyError Nat)
    ∧ testLinear.get_recurrent_current (0 : Nat)
      = (Except.error PyError.notImplementedError : Except PyError Nat)
    ∧ testPoly.get_recurrent_current (0 : Nat)
      = (Except.error PyError.notImplementedError : Except PyError Nat) := by
  have h10 := @c10_recurrent_source_raises Nat Nat 4 [(9 : ℚ)/10] false
    fastSig 100 (Kwargs.mk true false false false) testStdRec 0 testLinear
    testConv testPoly testPolyConv rfl rfl
  exact ⟨h10.1, h10.2.1, h10.2.2.1, h10.2.2.2.1, h10.2.2.2.2.2.1⟩
